import Mathlib

/-!
Shallow embedding of the geospatial aggregation / interpolation / caching core
of the Nasa-SpaceApps-Hackathon backend (src/backend/fetch_aqi.py and
src/backend/fetch_aod.py), together with theorems settling the spec claims.

Floating-point arithmetic is modelled by real arithmetic.  Python's stable
`sorted` is modelled by a stable insertion sort (any stable ascending sort
computes the same list).  The I/O effects of the cached fetchers (file
modification time, `json.load` which may raise, the network fetches which are
caught per station) are modelled by explicit parameters: the current time, the
parse outcome stored alongside the entry, and an `Except`-valued outcome per
station fetch.
-/

namespace NasaSpaceApps

open Real List

/-- Classical decidability for the real-number comparisons and list
equalities the embedded code branches on, at low priority so computable
instances are still preferred. -/
noncomputable instance (priority := low) propDec (p : Prop) : Decidable p :=
  Classical.propDecidable p

/-- `math.radians` (degrees to radians). -/
noncomputable def radians (deg : ℝ) : ℝ := deg * π / 180

/-- Python's `math.atan2 y x`. The haversine code only ever calls it with
nonnegative arguments, where only the `0 < x` and `x = 0` branches matter. -/
noncomputable def atan2 (y x : ℝ) : ℝ :=
  if 0 < x then arctan (y / x)
  else if x < 0 ∧ 0 ≤ y then arctan (y / x) + π
  else if x < 0 ∧ y < 0 then arctan (y / x) - π
  else if x = 0 ∧ 0 < y then π / 2
  else if x = 0 ∧ y < 0 then -(π / 2)
  else 0

/-- `haversine` from fetch_aqi.py lines 90-96 (textually identical in
fetch_aod.py lines 70-75): great-circle distance in km, Earth radius 6371. -/
noncomputable def haversine (lat1 lon1 lat2 lon2 : ℝ) : ℝ :=
  let R : ℝ := 6371
  let dlat := radians (lat2 - lat1)
  let dlon := radians (lon2 - lon1)
  let a := sin (dlat / 2) ^ 2 +
    cos (radians lat1) * cos (radians lat2) * sin (dlon / 2) ^ 2
  R * 2 * atan2 (Real.sqrt a) (Real.sqrt (1 - a))

/-- Insert into a sorted list, keeping insertion-order among equal keys. -/
noncomputable def insertAsc (key : α → ℝ) (x : α) : List α → List α
  | [] => [x]
  | y :: ys => if key x ≤ key y then x :: y :: ys else y :: insertAsc key x ys

/-- Python's `sorted(l, key=key)`: stable ascending sort.  A stable ascending
sort is unique, so insertion sort computes exactly what `sorted` computes. -/
noncomputable def sortByKey (key : α → ℝ) : List α → List α
  | [] => []
  | x :: xs => insertAsc key x (sortByKey key xs)

/-- Filtering by a (classically decidable) predicate. -/
noncomputable def filterSel (P : α → Prop) : List α → List α
  | [] => []
  | x :: xs => if P x then x :: filterSel P xs else filterSel P xs

/-- Python's built-in `round` to an integer: round half to even. -/
noncomputable def pyRound (x : ℝ) : ℝ :=
  if Int.fract x = 1 / 2 then
    (if Even ⌊x⌋ then (⌊x⌋ : ℝ) else (⌊x⌋ : ℝ) + 1)
  else (round x : ℤ)

/-- Python's `round(x, 3)` (three decimal places), modelled decimally. -/
noncomputable def pyRound3 (x : ℝ) : ℝ := pyRound (x * 1000) / 1000

/-- `numpy.arange a b s` for a positive step (also Python's `range` when the
arguments are integers): `a, a + s, a + 2s, ...` while the value is `< b`. -/
noncomputable def arange (a b s : ℝ) : List ℝ :=
  (List.range ⌈(b - a) / s⌉₊).map (fun k => a + k * s)

/-- One AQI station record as produced by `fetch_station` (fetch_aqi.py
lines 53-60). -/
structure Station where
  city : String
  lat : ℝ
  lon : ℝ
  aqi : ℝ
  category : String
  time : String

instance : Inhabited Station := ⟨⟨"", 0, 0, 0, "", ""⟩⟩

/-- One smoothed output record (the dicts built in fetch_aqi.py lines 121-126
and 139-144): representative points and interpolated grid cells. -/
structure AqiRec where
  lat : ℝ
  lon : ℝ
  aqi : ℝ
  category : String

/-- The cluster grown around seed `p` (index `i`) in fetch_aqi.py lines
114-118: `p` followed by every `q` at index `j ≠ i` with
`haversine(p, q) < radius_km` — the inner loop does NOT consult the `used`
set, it only adds to it. -/
noncomputable def clusterOf (points : List Station) (radius_km : ℝ)
    (i : ℕ) (p : Station) : List Station :=
  p :: (filterSel
    (fun jq => jq.1 ≠ i ∧ haversine p.lat p.lon jq.2.lat jq.2.lon < radius_km)
    points.enum).map Prod.snd

/-- The indices the iteration for seed `i` adds to `used` (line 118). -/
noncomputable def claimedOf (points : List Station) (radius_km : ℝ)
    (i : ℕ) (p : Station) : List ℕ :=
  (filterSel
    (fun jq => jq.1 ≠ i ∧ haversine p.lat p.lon jq.2.lat jq.2.lon < radius_km)
    points.enum).map Prod.fst

/-- The outer clustering loop of fetch_aqi.py lines 111-118: iterate the
enumerated points, skip indices already in `used`, otherwise emit the grown
cluster and extend `used`. -/
noncomputable def clustersAux (points : List Station) (radius_km : ℝ) :
    List (ℕ × Station) → List ℕ → List (List Station)
  | [], _ => []
  | (i, p) :: rest, used =>
    if i ∈ used then clustersAux points radius_km rest used
    else
      clusterOf points radius_km i p ::
        clustersAux points radius_km rest (used ++ claimedOf points radius_km i p)

/-- The member lists of the clusters emitted by step 1 of
`smooth_aqi_points`. -/
noncomputable def clusters (points : List Station) (radius_km : ℝ) :
    List (List Station) :=
  clustersAux points radius_km points.enum []

/-- Collapse of one cluster to its representative dict
(fetch_aqi.py lines 120-126). -/
noncomputable def repOf (cluster : List Station) : AqiRec :=
  { lat := (cluster.map Station.lat).sum / cluster.length
    lon := (cluster.map Station.lon).sum / cluster.length
    aqi := pyRound ((cluster.map Station.aqi).sum / cluster.length)
    category := if 1 < cluster.length then "Interpolated" else cluster.headI.category }

/-- `sorted(points, key=lambda p: haversine(lat, lon, p.lat, p.lon))[:5]`
(fetch_aqi.py line 135). -/
noncomputable def nearestAqi (points : List Station) (lat lon : ℝ) : List Station :=
  (sortByKey (fun p => haversine lat lon p.lat p.lon) points).take 5

/-- The inverse-distance weighted mean of fetch_aqi.py lines 137-138:
weights `1 / (dist + 1)`, value `sum(v * w) / sum(w)`. -/
noncomputable def cellAvg (points : List Station) (lat lon : ℝ) : ℝ :=
  let nearest := nearestAqi points lat lon
  let weights := nearest.map (fun n => 1 / (haversine lat lon n.lat n.lon + 1))
  ((nearest.zip weights).map (fun nw => nw.1.aqi * nw.2)).sum / weights.sum

/-- The lattice iterated by the nested loops of fetch_aqi.py lines 129-134:
`range(25, 50, 2)` by `range(-125, -65, 2)`, outer-loop-major. -/
noncomputable def aqiLattice : List (ℝ × ℝ) :=
  (arange 25 50 2).flatMap (fun la => (arange (-125) (-65) 2).map (fun lo => (la, lo)))

/-- Step 2 of `smooth_aqi_points` (lines 133-144): for each lattice
coordinate, if the nearest-neighbour selection is nonempty emit one cell at
`(lat + 0.5, lon + 0.5)` with the rounded weighted mean, else skip. -/
noncomputable def fillGridAux (points : List Station) : List (ℝ × ℝ) → List AqiRec
  | [] => []
  | (lat, lon) :: rest =>
    if nearestAqi points lat lon = [] then fillGridAux points rest
    else
      { lat := lat + 0.5, lon := lon + 0.5
        aqi := pyRound (cellAvg points lat lon)
        category := "Interpolated" } :: fillGridAux points rest

/-- The `filled` list of fetch_aqi.py lines 128-144. -/
noncomputable def fillGrid (points : List Station) : List AqiRec :=
  fillGridAux points aqiLattice

/-- `smooth_aqi_points` (fetch_aqi.py lines 99-147): early return on empty
input, else cluster representatives followed by the filled grid. -/
noncomputable def smooth_aqi_points (points : List Station) (radius_km : ℝ) :
    List AqiRec :=
  if points = [] then []
  else (clusters points radius_km).map repOf ++ fillGrid points

/-- One AOD point / output record (`{lat, lon, aod}` dicts of fetch_aod.py). -/
structure AodPoint where
  lat : ℝ
  lon : ℝ
  aod : ℝ

/-- `sorted(points, key=...)[:5]` of fetch_aod.py line 91. -/
noncomputable def nearbyAod (points : List AodPoint) (lat lon : ℝ) : List AodPoint :=
  (sortByKey (fun p => haversine lat lon p.lat p.lon) points).take 5

/-- The weighted mean of fetch_aod.py lines 95-96. -/
noncomputable def aodCellAvg (points : List AodPoint) (lat lon : ℝ) : ℝ :=
  let nearby := nearbyAod points lat lon
  let weights := nearby.map (fun n => 1 / (haversine lat lon n.lat n.lon + 1))
  ((nearby.zip weights).map (fun nw => nw.1.aod * nw.2)).sum / weights.sum

/-- The lattice of fetch_aod.py lines 86-90 at the call site's `spacing = 2`:
`np.arange(25, 49, 2)` by `np.arange(-125, -66, 2)`. -/
noncomputable def aodLattice : List (ℝ × ℝ) :=
  (arange 25 49 2).flatMap (fun la => (arange (-125) (-66) 2).map (fun lo => (la, lo)))

/-- The loop body of fetch_aod.py lines 89-101 with the global RNG modelled
as a stream `rand : ℕ → ℝ` of `random.uniform(-0.3, 0.3)` draws, consumed in
call order (`k` is the index of the next unused draw; each emitted cell
consumes one draw for its latitude jitter and one for its longitude jitter). -/
noncomputable def smoothAodAux (points : List AodPoint) (rand : ℕ → ℝ) :
    List (ℝ × ℝ) → ℕ → List AodPoint
  | [], _ => []
  | (lat, lon) :: rest, k =>
    if nearbyAod points lat lon = [] then smoothAodAux points rand rest k
    else
      { lat := lat + rand k, lon := lon + rand (k + 1)
        aod := pyRound3 (aodCellAvg points lat lon) } ::
        smoothAodAux points rand rest (k + 2)

/-- `smooth_aod_points` (fetch_aod.py lines 81-104) at `spacing = 2`. -/
noncomputable def smooth_aod_points (points : List AodPoint) (rand : ℕ → ℝ) :
    List AodPoint :=
  if points = [] then [] else smoothAodAux points rand aodLattice 0

/-- `fetch_station` (fetch_aqi.py lines 31-67), modelled by its outcome: a
parsed station list on HTTP 200, `[]` on a non-200 status or any raised
exception (both are swallowed, lines 62-67). -/
def fetch_station (outcome : Except String (List Station)) : List Station :=
  match outcome with
  | .ok stations => stations
  | .error _ => []

/-- The dedup loop of fetch_aqi.py lines 77-84: keep the first station for
each `(round(lat, 3), round(lon, 3))` key. -/
noncomputable def dedupAux : List Station → List (ℝ × ℝ) → List Station
  | [], _ => []
  | s :: rest, seen =>
    if (pyRound3 s.lat, pyRound3 s.lon) ∈ seen then dedupAux rest seen
    else s :: dedupAux rest ((pyRound3 s.lat, pyRound3 s.lon) :: seen)

/-- `fetch_all_aqi` (fetch_aqi.py lines 70-87): gather the per-station
results (each already `[]` on failure), flatten, deduplicate. -/
noncomputable def fetch_all_aqi (outcomes : List (Except String (List Station))) :
    List Station :=
  dedupAux ((outcomes.map fetch_station).flatten) []

/-- The cache file state seen by `fetch_aqi_data`: `none` when
`CACHE_FILE.exists()` is false, else the file's mtime (epoch seconds)
together with the outcome of `json.load` on its contents (`.error` models an
unreadable/corrupt file, where `json.load` raises). -/
structure AqiCacheState where
  entry : Option (ℝ × Except String (List AqiRec))

/-- Result of a `fetch_aqi_data` call: the returned value (or the raised
error), the cache file state afterwards, and how many times the compute step
`asyncio.run(fetch_all_aqi())` was invoked. -/
structure AqiFetchResult where
  value : Except String (List AqiRec)
  state : AqiCacheState
  computeCalls : ℕ

/-- The recompute path of fetch_aqi.py lines 159-165: run the fetch (whose
per-station failures are swallowed; `.error` models an exception escaping
`asyncio.run` itself, which propagates before any write), smooth, write the
cache file (its mtime becomes `now`), return the data. -/
noncomputable def recomputeAqi (st : AqiCacheState) (now : ℝ)
    (run : Except String (List (Except String (List Station)))) : AqiFetchResult :=
  match run with
  | .error e => ⟨.error e, st, 1⟩
  | .ok outcomes =>
    let data := smooth_aqi_points (fetch_all_aqi outcomes) 150
    ⟨.ok data, ⟨some (now, .ok data)⟩, 1⟩

/-- `fetch_aqi_data` (fetch_aqi.py lines 150-165): if the cache file exists
and its age `(now - mtime) / 3600` is under 2 hours, return `json.load` of it
(which raises on a corrupt file — there is no handler); otherwise recompute
and overwrite. -/
noncomputable def fetch_aqi_data (st : AqiCacheState) (now : ℝ)
    (run : Except String (List (Except String (List Station)))) : AqiFetchResult :=
  match st.entry with
  | some (mtime, blob) =>
    if (now - mtime) / 3600 < 2 then ⟨blob, st, 0⟩
    else recomputeAqi st now run
  | none => recomputeAqi st now run

/-! Concrete inputs used by the counterexamples and witnesses. -/

/-- Equator station at longitude 0. -/
noncomputable def stA : Station := ⟨"A", 0, 0, 10, "Good", ""⟩

/-- Equator station at longitude 1 (about 111.2 km from both `stA` and
`stC`). -/
noncomputable def stB : Station := ⟨"B", 0, 1, 20, "Good", ""⟩

/-- Equator station at longitude 2 (about 222.4 km from `stA`). -/
noncomputable def stC : Station := ⟨"C", 0, 2, 30, "Good", ""⟩

/-- Two co-located stations whose AQI values average to 50.5. -/
noncomputable def stD : Station := ⟨"D", 40, -100, 50, "Good", ""⟩

/-- Second co-located station, value 51. -/
noncomputable def stE : Station := ⟨"E", 40, -100, 51, "Moderate", ""⟩

/-- First station of the spec's end-to-end clustering scenario. -/
noncomputable def stP1 : Station := ⟨"P1", 40, -100, 50, "Good", ""⟩

/-- Second station of the spec's end-to-end clustering scenario. -/
noncomputable def stP2 : Station := ⟨"P2", 40.001, -100.001, 54, "Moderate", ""⟩

/-- A single station with the fractional value 2/5. -/
noncomputable def stF : Station := ⟨"F", 40, -100, 2/5, "Good", ""⟩

/-- A single station with value 30 (spec's single-point interpolation
scenario). -/
noncomputable def stG : Station := ⟨"G", 40, -100, 30, "Good", ""⟩

/-- A nonempty cached payload. -/
noncomputable def cachedRec : AqiRec := ⟨40, -100, 50, "Good"⟩

/-- A single AOD point. -/
noncomputable def aodP : AodPoint := ⟨40, -100, 1/2⟩

/-! Helper lemmas about the distance metric. -/

/-- The numerator `a` of the haversine formula, for stating unfoldings. -/
noncomputable def havA (lat1 lon1 lat2 lon2 : ℝ) : ℝ :=
  sin (radians (lat2 - lat1) / 2) ^ 2 +
    cos (radians lat1) * cos (radians lat2) * sin (radians (lon2 - lon1) / 2) ^ 2

lemma haversine_def (lat1 lon1 lat2 lon2 : ℝ) :
    haversine lat1 lon1 lat2 lon2 =
      6371 * 2 * atan2 (Real.sqrt (havA lat1 lon1 lat2 lon2))
        (Real.sqrt (1 - havA lat1 lon1 lat2 lon2)) := rfl

lemma arctan_le_self {x : ℝ} (h : 0 ≤ x) : arctan x ≤ x := by
  rcases eq_or_lt_of_le h with h0 | h0
  · simp [← h0]
  · have h1 := Real.arctan_lt_pi_div_two x
    have h2 : 0 < arctan x := by
      rw [show (0:ℝ) = arctan 0 from (Real.arctan_zero).symm]
      exact Real.arctan_strictMono h0
    have h3 := Real.lt_tan h2 h1
    rw [Real.tan_arctan] at h3
    exact le_of_lt h3

lemma atan2_nonneg {y x : ℝ} (hy : 0 ≤ y) (hx : 0 ≤ x) : 0 ≤ atan2 y x := by
  unfold atan2
  rcases lt_or_eq_of_le hx with hx' | hx'
  · rw [if_pos hx']
    rw [show (0:ℝ) = arctan 0 from (Real.arctan_zero).symm]
    exact (Real.arctan_strictMono.monotone (by positivity))
  · rw [if_neg (by simp [← hx']), if_neg (by simp [← hx']), if_neg (by simp [← hx'])]
    by_cases hy' : 0 < y
    · rw [if_pos ⟨hx'.symm, hy'⟩]
      positivity
    · rw [if_neg (by simp [hy']),
        if_neg (by rintro ⟨-, h⟩; exact absurd h (not_lt.mpr hy))]

/-- The modelled distance is nonnegative for all real inputs. -/
lemma haversine_nonneg (lat1 lon1 lat2 lon2 : ℝ) :
    0 ≤ haversine lat1 lon1 lat2 lon2 := by
  rw [haversine_def]
  exact mul_nonneg (by norm_num)
    (atan2_nonneg (Real.sqrt_nonneg _) (Real.sqrt_nonneg _))

/-- Distance from a point to itself is zero. -/
lemma haversine_self (la lo : ℝ) : haversine la lo la lo = 0 := by
  rw [haversine_def]
  unfold havA radians atan2
  norm_num

/-- On the equator the haversine distance is linear in the longitude gap:
`6371 km · |Δlon in radians|` for gaps under 180 degrees. -/
lemma haversine_equator (x y : ℝ) (h : |y - x| < 180) :
    haversine 0 x 0 y = 6371 * (|y - x| * π / 180) := by
  rw [haversine_def]
  have hpi := Real.pi_pos
  set θ := radians (y - x) / 2 with hθdef
  have hA : havA 0 x 0 y = sin θ ^ 2 := by
    unfold havA radians
    rw [hθdef]
    unfold radians
    norm_num
  have habs : |θ| < π / 2 := by
    rw [hθdef]
    unfold radians
    rw [abs_div, abs_of_pos (by norm_num : (0:ℝ) < 2), abs_div,
      abs_of_pos (by norm_num : (0:ℝ) < 180), abs_mul, abs_of_pos hpi]
    rw [div_lt_iff₀ (by norm_num), div_mul_eq_mul_div, div_lt_iff₀ (by norm_num)]
    nlinarith [abs_nonneg (y - x)]
  have hcosθ : 0 < cos θ :=
    Real.cos_pos_of_mem_Ioo ⟨neg_lt_of_abs_lt habs, lt_of_abs_lt habs⟩
  have hsinabs : sin |θ| = |sin θ| := by
    rcases abs_cases θ with ⟨h1, h2⟩ | ⟨h1, h2⟩
    · rw [h1, abs_of_nonneg (Real.sin_nonneg_of_nonneg_of_le_pi h2
        (le_trans (le_of_lt (lt_of_abs_lt habs)) (by linarith [Real.pi_pos])))]
    · rw [h1, Real.sin_neg, abs_of_nonpos (Real.sin_nonpos_of_nonnpos_of_neg_pi_le
        (le_of_lt h2) (by linarith [neg_lt_of_abs_lt habs]))]
  have e1 : Real.sqrt (sin θ ^ 2) = |sin θ| := Real.sqrt_sq_eq_abs _
  have e2 : Real.sqrt (1 - sin θ ^ 2) = cos θ := by
    rw [← Real.cos_sq' θ, Real.sqrt_sq (le_of_lt hcosθ)]
  rw [hA, e1, e2]
  have hbranch : atan2 |sin θ| (cos θ) = arctan (|sin θ| / cos θ) := by
    unfold atan2
    rw [if_pos hcosθ]
  rw [hbranch]
  have htan : |sin θ| / cos θ = tan |θ| := by
    rw [Real.tan_eq_sin_div_cos, hsinabs, Real.cos_abs]
  rw [htan, Real.arctan_tan (by linarith [abs_nonneg θ, Real.pi_pos]) (by linarith [habs])]
  have hform : |θ| = |y - x| * π / 360 := by
    rw [hθdef]
    unfold radians
    rw [abs_div, abs_of_pos (by norm_num : (0:ℝ) < 2), abs_div,
      abs_of_pos (by norm_num : (0:ℝ) < 180), abs_mul, abs_of_pos hpi]
    ring
  rw [hform]
  ring

/-- One degree of longitude on the equator is within the 150 km default
cluster radius. -/
lemma hav_e01 : haversine 0 0 0 1 < 150 := by
  rw [haversine_equator 0 1 (by norm_num)]
  rw [show |(1:ℝ) - 0| = 1 by norm_num]
  nlinarith [Real.pi_lt_d2]

/-- Two degrees of longitude on the equator exceed the 150 km radius. -/
lemma hav_e02 : ¬ haversine 0 0 0 2 < 150 := by
  rw [not_lt, haversine_equator 0 2 (by norm_num)]
  rw [show |(2:ℝ) - 0| = 2 by norm_num]
  nlinarith [Real.pi_gt_d2]

lemma hav_e21 : haversine 0 2 0 1 < 150 := by
  rw [haversine_equator 2 1 (by norm_num)]
  rw [show |(1:ℝ) - 2| = 1 by norm_num]
  nlinarith [Real.pi_lt_d2]

lemma hav_e20 : ¬ haversine 0 2 0 0 < 150 := by
  rw [not_lt, haversine_equator 2 0 (by norm_num)]
  rw [show |(0:ℝ) - 2| = 2 by norm_num]
  nlinarith [Real.pi_gt_d2]

/-- The two stations of the spec's end-to-end clustering scenario are about
0.15 km apart, in particular within the 1 km cluster radius. -/
lemma haversine_scenario_lt_one : haversine 40 (-100) 40.001 (-100.001) < 1 := by
  rw [haversine_def]
  have hpi := Real.pi_pos
  have hpi4 : π < 3.1416 := Real.pi_lt_d4
  set t : ℝ := 0.001 * π / 360 with ht
  have htpos : 0 < t := by rw [ht]; positivity
  have htlt : t < 0.0000088 := by rw [ht]; linarith
  set cc : ℝ := cos (radians 40) * cos (radians 40.001) with hcc
  have hr40 : radians 40 < π / 2 := by unfold radians; linarith
  have hr40' : -(π / 2) < radians 40 := by unfold radians; linarith
  have hr41 : radians 40.001 < π / 2 := by unfold radians; linarith
  have hr41' : -(π / 2) < radians 40.001 := by unfold radians; linarith
  have hc1 : 0 < cos (radians 40) := Real.cos_pos_of_mem_Ioo ⟨hr40', hr40⟩
  have hc2 : 0 < cos (radians 40.001) := Real.cos_pos_of_mem_Ioo ⟨hr41', hr41⟩
  have hc1' := Real.cos_le_one (radians 40)
  have hc2' := Real.cos_le_one (radians 40.001)
  have hcc0 : 0 ≤ cc := by rw [hcc]; positivity
  have hcc1 : cc ≤ 1 := by rw [hcc]; nlinarith
  have hAeq : havA 40 (-100) 40.001 (-100.001) = (1 + cc) * sin t ^ 2 := by
    unfold havA radians
    rw [show ((40.001:ℝ) - 40) * π / 180 / 2 = 0.001 * π / 360 by ring,
      show ((-100.001:ℝ) - -100) * π / 180 / 2 = -(0.001 * π / 360) by ring,
      Real.sin_neg]
    rw [hcc]
    unfold radians
    rw [ht]
    ring
  have hsin0 : 0 ≤ sin t := Real.sin_nonneg_of_nonneg_of_le_pi (le_of_lt htpos)
    (by rw [ht]; nlinarith)
  have hsint : sin t ≤ t := le_of_lt (Real.sin_lt htpos)
  have hsinsq : sin t ^ 2 ≤ t ^ 2 := by nlinarith
  have ht2 : t ^ 2 ≤ 0.00000000008 := by nlinarith
  have hAub : havA 40 (-100) 40.001 (-100.001) ≤ 0.000000000169 := by
    rw [hAeq]; nlinarith
  have hA0 : 0 ≤ havA 40 (-100) 40.001 (-100.001) := by
    rw [hAeq]; positivity
  have hsqA : Real.sqrt (havA 40 (-100) 40.001 (-100.001)) ≤ 0.000013 := by
    have hb : havA 40 (-100) 40.001 (-100.001) ≤ (0.000013:ℝ) ^ 2 := by
      rw [show ((0.000013:ℝ)) ^ 2 = 0.000000000169 by norm_num]
      linarith
    calc Real.sqrt (havA 40 (-100) 40.001 (-100.001))
        ≤ Real.sqrt ((0.000013:ℝ) ^ 2) := Real.sqrt_le_sqrt hb
      _ = 0.000013 := Real.sqrt_sq (by norm_num)
  have hsq1A : (0.9:ℝ) ≤ Real.sqrt (1 - havA 40 (-100) 40.001 (-100.001)) := by
    calc (0.9:ℝ) = Real.sqrt ((0.9:ℝ) ^ 2) := (Real.sqrt_sq (by norm_num)).symm
      _ ≤ Real.sqrt (1 - havA 40 (-100) 40.001 (-100.001)) :=
          Real.sqrt_le_sqrt (by rw [show ((0.9:ℝ)) ^ 2 = 0.81 by norm_num]; linarith)
  have hsq1Apos : 0 < Real.sqrt (1 - havA 40 (-100) 40.001 (-100.001)) :=
    lt_of_lt_of_le (by norm_num) hsq1A
  have hbranch : atan2 (Real.sqrt (havA 40 (-100) 40.001 (-100.001)))
      (Real.sqrt (1 - havA 40 (-100) 40.001 (-100.001))) =
      arctan (Real.sqrt (havA 40 (-100) 40.001 (-100.001)) /
        Real.sqrt (1 - havA 40 (-100) 40.001 (-100.001))) := by
    unfold atan2
    rw [if_pos hsq1Apos]
  rw [hbranch]
  have hz : Real.sqrt (havA 40 (-100) 40.001 (-100.001)) /
      Real.sqrt (1 - havA 40 (-100) 40.001 (-100.001)) ≤ 0.000013 / 0.9 :=
    div_le_div₀ (by norm_num) hsqA (by norm_num) hsq1A
  have hz0 : 0 ≤ Real.sqrt (havA 40 (-100) 40.001 (-100.001)) /
      Real.sqrt (1 - havA 40 (-100) 40.001 (-100.001)) := by positivity
  have harc := arctan_le_self hz0
  linarith

/-! Helper lemmas about the stable sort, rounding and lattices. -/

lemma insertAsc_length (key : α → ℝ) (x : α) (l : List α) :
    (insertAsc key x l).length = l.length + 1 := by
  induction l with
  | nil => rfl
  | cons y ys ih =>
    unfold insertAsc
    by_cases h : key x ≤ key y
    · rw [if_pos h]
      simp
    · rw [if_neg h]
      simp [ih]

lemma sortByKey_length (key : α → ℝ) (l : List α) :
    (sortByKey key l).length = l.length := by
  induction l with
  | nil => rfl
  | cons x xs ih =>
    unfold sortByKey
    rw [insertAsc_length, ih]
    simp

lemma sortByKey_singleton (key : α → ℝ) (x : α) : sortByKey key [x] = [x] := rfl

lemma sortByKey_eq_nil_iff (key : α → ℝ) (l : List α) :
    sortByKey key l = [] ↔ l = [] := by
  constructor
  · intro h
    have := sortByKey_length key l
    rw [h] at this
    exact List.length_eq_zero.mp this.symm
  · intro h
    rw [h]
    rfl

lemma mem_insertAsc {key : α → ℝ} {x y : α} {l : List α} :
    y ∈ insertAsc key x l ↔ y = x ∨ y ∈ l := by
  induction l with
  | nil => simp [insertAsc]
  | cons z zs ih =>
    unfold insertAsc
    by_cases h : key x ≤ key z
    · rw [if_pos h]
      simp
    · rw [if_neg h]
      simp [ih]
      tauto

lemma mem_sortByKey {key : α → ℝ} {y : α} {l : List α} :
    y ∈ sortByKey key l ↔ y ∈ l := by
  induction l with
  | nil => simp [sortByKey]
  | cons x xs ih =>
    unfold sortByKey
    rw [mem_insertAsc, ih]
    simp

lemma pyRound_intCast (n : ℤ) : pyRound (n : ℝ) = n := by
  unfold pyRound
  rw [Int.fract_intCast, if_neg (by norm_num), round_intCast]

lemma pyRound_52 : pyRound 52 = 52 := by
  rw [show (52:ℝ) = ((52:ℤ):ℝ) by norm_num, pyRound_intCast]

lemma pyRound_30 : pyRound 30 = 30 := by
  rw [show (30:ℝ) = ((30:ℤ):ℝ) by norm_num, pyRound_intCast]

lemma pyRound_halves : pyRound (101 / 2 : ℝ) = 50 := by
  have hfl : ⌊(101 / 2 : ℝ)⌋ = 50 := by
    rw [Int.floor_eq_iff]
    norm_num
  unfold pyRound
  rw [Int.fract, hfl]
  rw [if_pos (by norm_num), if_pos (by decide)]
  norm_num

lemma pyRound_two_fifths : pyRound (2 / 5 : ℝ) = 0 := by
  have hfl : ⌊(2 / 5 : ℝ)⌋ = 0 := by
    rw [Int.floor_eq_iff]
    norm_num
  unfold pyRound
  rw [Int.fract, hfl, if_neg (by norm_num), round_eq]
  rw [show (2/5 : ℝ) + 1/2 = 9/10 by norm_num]
  rw [show ⌊(9/10 : ℝ)⌋ = 0 by rw [Int.floor_eq_iff]; norm_num]
  norm_num

lemma arange_aqi_lat : arange 25 50 2 =
    [25, 27, 29, 31, 33, 35, 37, 39, 41, 43, 45, 47, 49] := by
  unfold arange
  rw [show ⌈((50:ℝ) - 25) / 2⌉₊ = 13 by rw [Nat.ceil_eq_iff (by norm_num)]; norm_num]
  simp [List.range_succ]
  norm_num

lemma arange_aod_lat : arange 25 49 2 =
    [25, 27, 29, 31, 33, 35, 37, 39, 41, 43, 45, 47] := by
  unfold arange
  rw [show ⌈((49:ℝ) - 25) / 2⌉₊ = 12 by rw [Nat.ceil_eq_iff (by norm_num)]; norm_num]
  simp [List.range_succ]
  norm_num

lemma arange_aqi_lon : arange (-125) (-65) 2 =
    [-125, -123, -121, -119, -117, -115, -113, -111, -109, -107, -105, -103,
     -101, -99, -97, -95, -93, -91, -89, -87, -85, -83, -81, -79, -77, -75,
     -73, -71, -69, -67] := by
  unfold arange
  rw [show ⌈((-65:ℝ) - -125) / 2⌉₊ = 30 by rw [Nat.ceil_eq_iff (by norm_num)]; norm_num]
  simp [List.range_succ]
  norm_num

lemma arange_aod_lon : arange (-125) (-66) 2 =
    [-125, -123, -121, -119, -117, -115, -113, -111, -109, -107, -105, -103,
     -101, -99, -97, -95, -93, -91, -89, -87, -85, -83, -81, -79, -77, -75,
     -73, -71, -69, -67] := by
  unfold arange
  rw [show ⌈((-66:ℝ) - -125) / 2⌉₊ = 30 by rw [Nat.ceil_eq_iff (by norm_num)]; norm_num]
  simp [List.range_succ]
  norm_num

lemma filterSel_nil (P : α → Prop) : filterSel P [] = [] := rfl

lemma filterSel_cons_pos {P : α → Prop} {x : α} (xs : List α) (h : P x) :
    filterSel P (x :: xs) = x :: filterSel P xs := by
  rw [show filterSel P (x :: xs) =
    if P x then x :: filterSel P xs else filterSel P xs from rfl, if_pos h]

lemma filterSel_cons_neg {P : α → Prop} {x : α} (xs : List α) (h : ¬ P x) :
    filterSel P (x :: xs) = filterSel P xs := by
  rw [show filterSel P (x :: xs) =
    if P x then x :: filterSel P xs else filterSel P xs from rfl, if_neg h]

/-! Helper lemmas about the interpolator. -/

lemma nearestAqi_eq_nil_iff (points : List Station) (lat lon : ℝ) :
    nearestAqi points lat lon = [] ↔ points = [] := by
  unfold nearestAqi
  constructor
  · intro h
    have hl := congrArg List.length h
    rw [List.length_take, sortByKey_length] at hl
    simp only [List.length_nil] at hl
    rw [← List.length_eq_zero]
    omega
  · intro h
    rw [h]
    rfl

lemma nearestAqi_length (points : List Station) (lat lon : ℝ) :
    (nearestAqi points lat lon).length = min 5 points.length := by
  unfold nearestAqi
  rw [List.length_take, sortByKey_length]

lemma nearestAqi_singleton (p : Station) (lat lon : ℝ) :
    nearestAqi [p] lat lon = [p] := rfl

/-- Rewrites the zipped weighted sum of the source into a single map. -/
lemma zip_map_weight_sum (l : List Station) (w : Station → ℝ) (f : Station → ℝ) :
    ((l.zip (l.map w)).map (fun nw => f nw.1 * nw.2)).sum =
      (l.map (fun q => f q * w q)).sum := by
  induction l with
  | nil => rfl
  | cons x xs ih => simp [ih]

/-- Sums of positively-weighted values bounded below and above. -/
lemma weightedSum_bounds (l : List Station) (w : Station → ℝ) (m M : ℝ)
    (hw : ∀ q ∈ l, 0 < w q) (hb : ∀ q ∈ l, m ≤ q.aqi ∧ q.aqi ≤ M) :
    0 ≤ (l.map w).sum ∧
    (l ≠ [] → 0 < (l.map w).sum) ∧
    m * (l.map w).sum ≤ (l.map (fun q => q.aqi * w q)).sum ∧
    (l.map (fun q => q.aqi * w q)).sum ≤ M * (l.map w).sum := by
  induction l with
  | nil => simp
  | cons x xs ih =>
    obtain ⟨ih0, ih1, ih2, ih3⟩ := ih
      (fun q hq => hw q (List.mem_cons_of_mem x hq))
      (fun q hq => hb q (List.mem_cons_of_mem x hq))
    have hwx : 0 < w x := hw x (List.mem_cons_self x xs)
    obtain ⟨hmx, hMx⟩ := hb x (List.mem_cons_self x xs)
    simp only [List.map_cons, List.sum_cons]
    refine ⟨by linarith, fun _ => by linarith, ?_, ?_⟩
    · nlinarith [mul_le_mul_of_nonneg_right hmx (le_of_lt hwx)]
    · nlinarith [mul_le_mul_of_nonneg_right hMx (le_of_lt hwx)]

/-- The weighted mean of the selected neighbours lies within any interval
containing all their values. -/
lemma cellAvg_bounds (points : List Station) (lat lon m M : ℝ)
    (hne : points ≠ [])
    (hb : ∀ q ∈ nearestAqi points lat lon, m ≤ q.aqi ∧ q.aqi ≤ M) :
    m ≤ cellAvg points lat lon ∧ cellAvg points lat lon ≤ M := by
  unfold cellAvg
  simp only
  rw [zip_map_weight_sum]
  have hwpos : ∀ q ∈ nearestAqi points lat lon,
      0 < (fun n => 1 / (haversine lat lon n.lat n.lon + 1)) q := by
    intro q _
    have := haversine_nonneg lat lon q.lat q.lon
    positivity
  obtain ⟨h0, h1, h2, h3⟩ := weightedSum_bounds (nearestAqi points lat lon) _ m M hwpos hb
  have hS := h1 (by rw [Ne, nearestAqi_eq_nil_iff]; exact hne)
  constructor
  · rw [le_div_iff₀ hS]
    exact h2
  · rw [div_le_iff₀ hS]
    exact h3

/-- A single input point is its own sole neighbour, and the weight cancels. -/
lemma cellAvg_singleton (p : Station) (lat lon : ℝ) :
    cellAvg [p] lat lon = p.aqi := by
  unfold cellAvg
  simp only
  rw [nearestAqi_singleton]
  have hpos : 0 < haversine lat lon p.lat p.lon + 1 := by
    have := haversine_nonneg lat lon p.lat p.lon
    linarith
  have hw : (1 : ℝ) / (haversine lat lon p.lat p.lon + 1) ≠ 0 :=
    ne_of_gt (by positivity)
  simp only [List.map_cons, List.map_nil, List.zip_cons_cons, List.zip_nil_right,
    List.sum_cons, List.sum_nil, add_zero]
  rw [mul_div_assoc, div_self hw, mul_one]

/-- With a nonempty input every lattice coordinate emits exactly one cell. -/
lemma fillGridAux_eq_map (points : List Station) (hne : points ≠ [])
    (coords : List (ℝ × ℝ)) :
    fillGridAux points coords = coords.map (fun q =>
      ({ lat := q.1 + 0.5, lon := q.2 + 0.5,
         aqi := pyRound (cellAvg points q.1 q.2),
         category := "Interpolated" } : AqiRec)) := by
  induction coords with
  | nil => rfl
  | cons q rest ih =>
    obtain ⟨la, lo⟩ := q
    unfold fillGridAux
    rw [if_neg (by rw [nearestAqi_eq_nil_iff]; exact hne), ih]
    rfl

lemma fillGridAux_nil_points (coords : List (ℝ × ℝ)) :
    fillGridAux [] coords = [] := by
  induction coords with
  | nil => rfl
  | cons q rest ih =>
    obtain ⟨la, lo⟩ := q
    unfold fillGridAux
    rw [if_pos (by rw [nearestAqi_eq_nil_iff])]
    exact ih

lemma aqiLattice_length : aqiLattice.length = 390 := by
  unfold aqiLattice
  rw [List.length_flatMap, arange_aqi_lat, arange_aqi_lon]
  simp

/-- The first lattice coordinate of the AQI grid is `(25, -125)`. -/
lemma aqiLattice_head : aqiLattice = (25, -125) :: aqiLattice.tail := by
  unfold aqiLattice
  rw [arange_aqi_lat, arange_aqi_lon, List.flatMap_cons, List.map_cons,
    List.cons_append]
  rfl

/-! Helper lemmas about the AOD interpolator. -/

lemma nearbyAod_singleton (p : AodPoint) (lat lon : ℝ) :
    nearbyAod [p] lat lon = [p] := rfl

/-- The first lattice coordinate of the AOD grid is `(25, -125)`. -/
lemma aodLattice_head : aodLattice = (25, -125) :: aodLattice.tail := by
  unfold aodLattice
  rw [arange_aod_lat, arange_aod_lon, List.flatMap_cons, List.map_cons,
    List.cons_append]
  rfl

/-- Head of the AOD smoothing output for a one-point input: the first cell
sits at the first lattice coordinate plus the first two random draws. -/
lemma smooth_aod_head (p : AodPoint) (rand : ℕ → ℝ) :
    smooth_aod_points [p] rand =
      ({ lat := 25 + rand 0, lon := -125 + rand 1,
         aod := pyRound3 (aodCellAvg [p] 25 (-125)) } : AodPoint) ::
        smoothAodAux [p] rand aodLattice.tail 2 := by
  unfold smooth_aod_points
  rw [if_neg (by simp), aodLattice_head]
  rw [show smoothAodAux [p] rand ((25, -125) :: aodLattice.tail) 0 =
      if nearbyAod [p] 25 (-125) = [] then smoothAodAux [p] rand aodLattice.tail 0
      else ({ lat := 25 + rand 0, lon := -125 + rand (0 + 1),
              aod := pyRound3 (aodCellAvg [p] 25 (-125)) } : AodPoint) ::
        smoothAodAux [p] rand aodLattice.tail (0 + 2) from rfl]
  rw [if_neg (by rw [nearbyAod_singleton]; simp)]
  rfl

/-! Helper lemmas about the clustering loop. -/

lemma enum_pair (a b : Station) : ([a, b] : List Station).enum = [(0, a), (1, b)] := rfl

lemma enum_triple (a b c : Station) :
    ([a, b, c] : List Station).enum = [(0, a), (1, b), (2, c)] := rfl

lemma clustersAux_nil (points : List Station) (r : ℝ) (used : List ℕ) :
    clustersAux points r [] used = [] := rfl

lemma clustersAux_cons_skip (points : List Station) (r : ℝ) (i : ℕ) (p : Station)
    (rest : List (ℕ × Station)) (used : List ℕ) (h : i ∈ used) :
    clustersAux points r ((i, p) :: rest) used = clustersAux points r rest used := by
  rw [show clustersAux points r ((i, p) :: rest) used =
    if i ∈ used then clustersAux points r rest used
    else clusterOf points r i p ::
      clustersAux points r rest (used ++ claimedOf points r i p) from rfl, if_pos h]

lemma clustersAux_cons_new (points : List Station) (r : ℝ) (i : ℕ) (p : Station)
    (rest : List (ℕ × Station)) (used : List ℕ) (h : i ∉ used) :
    clustersAux points r ((i, p) :: rest) used =
      clusterOf points r i p ::
        clustersAux points r rest (used ++ claimedOf points r i p) := by
  rw [show clustersAux points r ((i, p) :: rest) used =
    if i ∈ used then clustersAux points r rest used
    else clusterOf points r i p ::
      clustersAux points r rest (used ++ claimedOf points r i p) from rfl, if_neg h]

/-- The inner scan for seed `stA` selects exactly the middle station. -/
lemma filter_seed_A : filterSel (fun jq : ℕ × Station => jq.1 ≠ 0 ∧
    haversine stA.lat stA.lon jq.2.lat jq.2.lon < 150)
    [(0, stA), (1, stB), (2, stC)] = [(1, stB)] := by
  rw [filterSel_cons_neg _ (by simp),
    filterSel_cons_pos _ ⟨by decide, hav_e01⟩,
    filterSel_cons_neg _ (fun h => hav_e02 h.2),
    filterSel_nil]

/-- The inner scan for seed `stC` also selects the middle station, although
it is already claimed. -/
lemma filter_seed_C : filterSel (fun jq : ℕ × Station => jq.1 ≠ 2 ∧
    haversine stC.lat stC.lon jq.2.lat jq.2.lon < 150)
    [(0, stA), (1, stB), (2, stC)] = [(1, stB)] := by
  rw [filterSel_cons_neg _ (fun h => hav_e20 h.2),
    filterSel_cons_pos _ ⟨by decide, hav_e21⟩,
    filterSel_cons_neg _ (by simp),
    filterSel_nil]

lemma clusterOf_A : clusterOf [stA, stB, stC] 150 0 stA = [stA, stB] := by
  unfold clusterOf
  rw [enum_triple, filter_seed_A]
  rfl

lemma clusterOf_C : clusterOf [stA, stB, stC] 150 2 stC = [stC, stB] := by
  unfold clusterOf
  rw [enum_triple, filter_seed_C]
  rfl

lemma claimedOf_A : claimedOf [stA, stB, stC] 150 0 stA = [1] := by
  unfold claimedOf
  rw [enum_triple, filter_seed_A]
  rfl

lemma claimedOf_C : claimedOf [stA, stB, stC] 150 2 stC = [1] := by
  unfold claimedOf
  rw [enum_triple, filter_seed_C]
  rfl

/-- Full evaluation of the clustering loop on the equator triple: the middle
station is claimed by both the first and the last cluster. -/
lemma clusters_ABC : clusters [stA, stB, stC] 150 = [[stA, stB], [stC, stB]] := by
  unfold clusters
  rw [enum_triple,
    clustersAux_cons_new _ _ _ _ _ _ (by simp),
    claimedOf_A, List.nil_append,
    clustersAux_cons_skip _ _ _ _ _ _ (by simp),
    clustersAux_cons_new _ _ _ _ _ _ (by simp),
    claimedOf_C, clustersAux_nil, clusterOf_A, clusterOf_C]

/-- The inner scan for seed `stD` selects the co-located `stE`. -/
lemma filter_seed_D : filterSel (fun jq : ℕ × Station => jq.1 ≠ 0 ∧
    haversine stD.lat stD.lon jq.2.lat jq.2.lon < 150)
    [(0, stD), (1, stE)] = [(1, stE)] := by
  rw [filterSel_cons_neg _ (by simp),
    filterSel_cons_pos _ ⟨by decide,
      by rw [show haversine stD.lat stD.lon stE.lat stE.lon =
          haversine 40 (-100) 40 (-100) from rfl, haversine_self]; norm_num⟩,
    filterSel_nil]

lemma clusters_DE : clusters [stD, stE] 150 = [[stD, stE]] := by
  unfold clusters
  rw [enum_pair,
    clustersAux_cons_new _ _ _ _ _ _ (by simp)]
  rw [show claimedOf [stD, stE] 150 0 stD = [1] by
    unfold claimedOf; rw [enum_pair, filter_seed_D]; rfl]
  rw [List.nil_append,
    clustersAux_cons_skip _ _ _ _ _ _ (by simp),
    clustersAux_nil]
  rw [show clusterOf [stD, stE] 150 0 stD = [stD, stE] by
    unfold clusterOf; rw [enum_pair, filter_seed_D]; rfl]

/-- The inner scan for seed `stP1` of the end-to-end scenario, cluster
radius 1 km. -/
lemma filter_seed_P1 : filterSel (fun jq : ℕ × Station => jq.1 ≠ 0 ∧
    haversine stP1.lat stP1.lon jq.2.lat jq.2.lon < 1)
    [(0, stP1), (1, stP2)] = [(1, stP2)] := by
  rw [filterSel_cons_neg _ (by simp),
    filterSel_cons_pos _ ⟨by decide, haversine_scenario_lt_one⟩,
    filterSel_nil]

/-- The end-to-end scenario input forms a single two-member cluster. -/
lemma clusters_P1P2 : clusters [stP1, stP2] 1 = [[stP1, stP2]] := by
  unfold clusters
  rw [enum_pair,
    clustersAux_cons_new _ _ _ _ _ _ (by simp)]
  rw [show claimedOf [stP1, stP2] 1 0 stP1 = [1] by
    unfold claimedOf; rw [enum_pair, filter_seed_P1]; rfl]
  rw [List.nil_append,
    clustersAux_cons_skip _ _ _ _ _ _ (by simp),
    clustersAux_nil]
  rw [show clusterOf [stP1, stP2] 1 0 stP1 = [stP1, stP2] by
    unfold clusterOf; rw [enum_pair, filter_seed_P1]; rfl]

/-- Evaluation of the representative of the co-located pair: the mean 50.5
is rounded (half-to-even) to 50. -/
lemma repOf_DE : repOf [stD, stE] = ⟨40, -100, 50, "Interpolated"⟩ := by
  unfold repOf
  simp only [AqiRec.mk.injEq]
  refine ⟨by simp [stD, stE], by simp [stD, stE], ?_, by simp⟩
  rw [show (([stD, stE] : List Station).map Station.aqi).sum /
      (([stD, stE] : List Station).length : ℝ) = 101 / 2 by
    simp [stD, stE]
    norm_num]
  exact pyRound_halves

/-- Evaluation of the representative of the scenario pair: centroid
(40.0005, -100.0005), mean value 52, relabelled Interpolated. -/
lemma repOf_P1P2 : repOf [stP1, stP2] = ⟨40.0005, -100.0005, 52, "Interpolated"⟩ := by
  unfold repOf
  simp only [AqiRec.mk.injEq]
  refine ⟨by simp [stP1, stP2]; norm_num, by simp [stP1, stP2]; norm_num, ?_, by simp⟩
  rw [show (([stP1, stP2] : List Station).map Station.aqi).sum /
      (([stP1, stP2] : List Station).length : ℝ) = 52 by
    simp [stP1, stP2]
    norm_num]
  exact pyRound_52

/-- A one-member cluster keeps its sole member's coordinates and category;
only the value passes through Python's round. -/
lemma repOf_singleton (p : Station) :
    repOf [p] = ⟨p.lat, p.lon, pyRound p.aqi, p.category⟩ := by
  unfold repOf
  simp

/-- Every cluster emitted by the loop is nonempty (it contains its seed). -/
lemma clustersAux_forall_ne_nil (points : List Station) (r : ℝ)
    (l : List (ℕ × Station)) : ∀ (used : List ℕ),
    ∀ c ∈ clustersAux points r l used, c ≠ [] := by
  induction l with
  | nil =>
    intro used c hc
    rw [clustersAux_nil] at hc
    simp at hc
  | cons ip rest ih =>
    intro used c hc
    obtain ⟨i, p⟩ := ip
    by_cases h : i ∈ used
    · rw [clustersAux_cons_skip _ _ _ _ _ _ h] at hc
      exact ih used c hc
    · rw [clustersAux_cons_new _ _ _ _ _ _ h] at hc
      rcases List.mem_cons.mp hc with h1 | h1
      · rw [h1]
        unfold clusterOf
        simp
      · exact ih _ c h1

/-! Helper lemmas about the cached fetcher. -/

lemma fetch_aqi_data_some (mtime : ℝ) (blob : Except String (List AqiRec))
    (now : ℝ) (run : Except String (List (Except String (List Station)))) :
    fetch_aqi_data ⟨some (mtime, blob)⟩ now run =
      if (now - mtime) / 3600 < 2 then ⟨blob, ⟨some (mtime, blob)⟩, 0⟩
      else recomputeAqi ⟨some (mtime, blob)⟩ now run := rfl

lemma fetch_aqi_data_none (now : ℝ)
    (run : Except String (List (Except String (List Station)))) :
    fetch_aqi_data ⟨none⟩ now run = recomputeAqi ⟨none⟩ now run := rfl

lemma recomputeAqi_error (st : AqiCacheState) (now : ℝ) (e : String) :
    recomputeAqi st now (.error e) = ⟨.error e, st, 1⟩ := rfl

lemma recomputeAqi_ok (st : AqiCacheState) (now : ℝ)
    (outcomes : List (Except String (List Station))) :
    recomputeAqi st now (.ok outcomes) =
      ⟨.ok (smooth_aqi_points (fetch_all_aqi outcomes) 150),
       ⟨some (now, .ok (smooth_aqi_points (fetch_all_aqi outcomes) 150))⟩, 1⟩ := rfl

/-- When every station fetch fails, the gathered station list is empty. -/
lemma fetch_all_aqi_all_fail (n : ℕ) (e : String) :
    fetch_all_aqi (List.replicate n (.error e)) = [] := by
  unfold fetch_all_aqi
  rw [List.map_replicate]
  rw [show fetch_station (Except.error e) = [] from rfl]
  rw [show (List.replicate n ([] : List Station)).flatten = [] by simp]
  rfl

lemma smooth_aqi_points_nil (r : ℝ) : smooth_aqi_points [] r = [] := by
  unfold smooth_aqi_points
  rw [if_pos rfl]

lemma smooth_aqi_points_cons (points : List Station) (r : ℝ) (h : points ≠ []) :
    smooth_aqi_points points r = (clusters points r).map repOf ++ fillGrid points := by
  unfold smooth_aqi_points
  rw [if_neg h]

/-! The claim theorems. -/

/-- C1: the claim says clustering partitions its input (member counts sum to
the input size, each observation in exactly one cluster, the used-mask
preventing double claims).  The code violates this: on three equator
stations at longitudes 0, 1, 2 with the default 150 km radius, the middle
station is claimed by both the first and the last cluster, because the inner
member-gathering loop never consults the used set; member counts sum to 4
for 3 inputs. -/
theorem C1_clusters_not_partition :
    clusters [stA, stB, stC] 150 = [[stA, stB], [stC, stB]] ∧
    ((clusters [stA, stB, stC] 150).map List.length).sum = 4 ∧
    ([stA, stB, stC] : List Station).length = 3 ∧
    stB ∈ [stA, stB] ∧ stB ∈ [stC, stB] := by
  refine ⟨clusters_ABC, ?_, rfl, by simp, by simp⟩
  rw [clusters_ABC]
  rfl

/-- C2: the claim says a failed recomputation (network error, upstream auth
failure) leaves an existing stale entry intact.  The code violates this:
station-fetch failures are swallowed into an empty station list, which is
smoothed to `[]` and written over the stale cache entry, destroying its
payload. -/
theorem C2_stale_entry_clobbered :
    fetch_aqi_data ⟨some (0, .ok [cachedRec])⟩ 10800
        (.ok (List.replicate 26 (.error "network error"))) =
      ⟨.ok [], ⟨some (10800, .ok [])⟩, 1⟩ ∧
    [cachedRec] ≠ ([] : List AqiRec) := by
  constructor
  · rw [fetch_aqi_data_some]
    rw [if_neg (by norm_num)]
    rw [recomputeAqi_ok, fetch_all_aqi_all_fail, smooth_aqi_points_nil]
  · simp

/-- C3 counterexample: a corrupt entry that is still fresh is NOT treated as
NoEntry — the `json.load` error propagates (the returned value is the raised
error), and the compute step is never invoked; a missing entry, by contrast,
does recompute. -/
theorem C3_counterexample :
    fetch_aqi_data ⟨some (0, .error "corrupt")⟩ 0 (.ok []) =
      ⟨.error "corrupt", ⟨some (0, .error "corrupt")⟩, 0⟩ ∧
    (fetch_aqi_data ⟨none⟩ 0 (.ok [])).computeCalls = 1 := by
  constructor
  · rw [fetch_aqi_data_some, if_pos (by norm_num)]
  · rw [fetch_aqi_data_none, recomputeAqi_ok]

/-- C3 amended: a corrupt entry is only treated as NoEntry when it is also
stale (the stale branch recomputes without ever reading the file); when the
corrupt entry is fresh, the read error propagates out of the cached fetch
with no recompute. -/
theorem C3_corrupt_entry (mtime now : ℝ) (e : String)
    (run : Except String (List (Except String (List Station)))) :
    ((now - mtime) / 3600 < 2 →
      fetch_aqi_data ⟨some (mtime, .error e)⟩ now run =
        ⟨.error e, ⟨some (mtime, .error e)⟩, 0⟩) ∧
    (¬ (now - mtime) / 3600 < 2 →
      fetch_aqi_data ⟨some (mtime, .error e)⟩ now run =
        recomputeAqi ⟨some (mtime, .error e)⟩ now run ∧
      (fetch_aqi_data ⟨some (mtime, .error e)⟩ now run).computeCalls = 1) := by
  constructor
  · intro h
    rw [fetch_aqi_data_some, if_pos h]
  · intro h
    rw [fetch_aqi_data_some, if_neg h]
    refine ⟨rfl, ?_⟩
    cases run with
    | error e' => rw [recomputeAqi_error]
    | ok outcomes => rw [recomputeAqi_ok]

/-- C3 witness: both branches of the amended claim at concrete states. -/
theorem C3_corrupt_entry_witness :
    (((0:ℝ) - 0) / 3600 < 2 ∧
      fetch_aqi_data ⟨some (0, .error "bad")⟩ 0 (.ok []) =
        ⟨.error "bad", ⟨some (0, .error "bad")⟩, 0⟩) ∧
    (¬ ((10800:ℝ) - 0) / 3600 < 2 ∧
      (fetch_aqi_data ⟨some (0, .error "bad")⟩ 10800 (.ok [])).computeCalls = 1) :=
  ⟨⟨by norm_num, (C3_corrupt_entry 0 0 "bad" (.ok [])).1 (by norm_num)⟩,
   ⟨by norm_num, ((C3_corrupt_entry 0 10800 "bad" (.ok [])).2 (by norm_num)).2⟩⟩

/-- C4 counterexample: the AOD interpolator's emitted cell locations are not
a function of the configuration alone — two runs over the same single input
point whose uniform(-0.3, 0.3) draws differ (all zeros vs all 0.1) place
their first cell at latitude 25 and 25.1 respectively. -/
theorem C4_counterexample :
    ((smooth_aod_points [aodP] (fun _ => 0)).head?.map AodPoint.lat) = some 25 ∧
    ((smooth_aod_points [aodP] (fun _ => 1/10)).head?.map AodPoint.lat) =
      some (25 + 1/10) ∧
    (25 : ℝ) ≠ 25 + 1/10 ∧
    |(0:ℝ)| ≤ 3/10 ∧ |(1/10:ℝ)| ≤ 3/10 := by
  refine ⟨?_, ?_, by norm_num, by norm_num,
    by rw [abs_of_nonneg (by norm_num : (0:ℝ) ≤ 1/10)]; norm_num⟩
  · rw [smooth_aod_head]
    simp
  · rw [smooth_aod_head]
    simp

/-- C4 amended: the iterated lattice is deterministic, and the AQI
interpolator's emitted cell locations are exactly the fixed lattice
coordinates plus 0.5 degrees, independent of the input points; the AOD
interpolator however jitters each emitted location by a random
uniform(-0.3, 0.3) draw, so only the AQI grid is a function of the
configuration alone. -/
theorem C4_aqi_grid_deterministic (points points' : List Station)
    (h : points ≠ []) (h' : points' ≠ []) :
    (fillGrid points).map (fun c => (c.lat, c.lon)) =
      aqiLattice.map (fun q => (q.1 + 0.5, q.2 + 0.5)) ∧
    (fillGrid points).map (fun c => (c.lat, c.lon)) =
      (fillGrid points').map (fun c => (c.lat, c.lon)) := by
  have e : ∀ pts : List Station, pts ≠ [] →
      (fillGrid pts).map (fun c => (c.lat, c.lon)) =
        aqiLattice.map (fun q => (q.1 + 0.5, q.2 + 0.5)) := by
    intro pts hne
    unfold fillGrid
    rw [fillGridAux_eq_map pts hne, List.map_map]
    rfl
  exact ⟨e points h, (e points h).trans (e points' h').symm⟩

/-- C4 witness: two different one-point inputs produce cells at identical
locations. -/
theorem C4_aqi_grid_deterministic_witness :
    ([stG] : List Station) ≠ [] ∧ ([stD] : List Station) ≠ [] ∧
    (fillGrid [stG]).map (fun c => (c.lat, c.lon)) =
      (fillGrid [stD]).map (fun c => (c.lat, c.lon)) :=
  ⟨by simp, by simp, (C4_aqi_grid_deterministic [stG] [stD] (by simp) (by simp)).2⟩

/-- C5: freshness-gated caching.  A fresh readable entry is returned as-is
with no compute call and no state change; a missing or stale entry triggers
exactly one compute call, whose smoothed result is persisted as a full
replacement entry timestamped now and returned. -/
theorem C5_freshness_gate :
    (∀ (mtime now : ℝ) (payload : List AqiRec)
        (run : Except String (List (Except String (List Station)))),
      (now - mtime) / 3600 < 2 →
        fetch_aqi_data ⟨some (mtime, .ok payload)⟩ now run =
          ⟨.ok payload, ⟨some (mtime, .ok payload)⟩, 0⟩) ∧
    (∀ (now : ℝ) (outcomes : List (Except String (List Station))),
      fetch_aqi_data ⟨none⟩ now (.ok outcomes) =
        ⟨.ok (smooth_aqi_points (fetch_all_aqi outcomes) 150),
         ⟨some (now, .ok (smooth_aqi_points (fetch_all_aqi outcomes) 150))⟩, 1⟩) ∧
    (∀ (mtime now : ℝ) (blob : Except String (List AqiRec))
        (outcomes : List (Except String (List Station))),
      ¬ (now - mtime) / 3600 < 2 →
        fetch_aqi_data ⟨some (mtime, blob)⟩ now (.ok outcomes) =
          ⟨.ok (smooth_aqi_points (fetch_all_aqi outcomes) 150),
           ⟨some (now, .ok (smooth_aqi_points (fetch_all_aqi outcomes) 150))⟩, 1⟩) := by
  refine ⟨?_, ?_, ?_⟩
  · intro mtime now payload run h
    rw [fetch_aqi_data_some, if_pos h]
  · intro now outcomes
    rw [fetch_aqi_data_none, recomputeAqi_ok]
  · intro mtime now blob outcomes h
    rw [fetch_aqi_data_some, if_neg h, recomputeAqi_ok]

/-- C5 witness: the fresh branch at age 1 hour and the stale branch at age
3 hours, on concrete states. -/
theorem C5_freshness_gate_witness :
    (((3600:ℝ) - 0) / 3600 < 2 ∧
      fetch_aqi_data ⟨some (0, .ok [cachedRec])⟩ 3600 (.ok []) =
        ⟨.ok [cachedRec], ⟨some (0, .ok [cachedRec])⟩, 0⟩) ∧
    (¬ ((10800:ℝ) - 0) / 3600 < 2 ∧
      fetch_aqi_data ⟨some (0, .ok [cachedRec])⟩ 10800 (.ok []) =
        ⟨.ok (smooth_aqi_points (fetch_all_aqi []) 150),
         ⟨some (10800, .ok (smooth_aqi_points (fetch_all_aqi []) 150))⟩, 1⟩) :=
  ⟨⟨by norm_num, C5_freshness_gate.1 0 3600 [cachedRec] (.ok []) (by norm_num)⟩,
   ⟨by norm_num, C5_freshness_gate.2.2 0 10800 (.ok [cachedRec]) [] (by norm_num)⟩⟩

/-- C6 counterexample: the representative value is NOT the mean of the
member values: two co-located stations with values 50 and 51 have mean 50.5,
but the emitted representative carries 50 (Python round, half to even). -/
theorem C6_counterexample :
    (clusters [stD, stE] 150).map repOf = [⟨40, -100, 50, "Interpolated"⟩] ∧
    (stD.aqi + stE.aqi) / 2 = 101 / 2 ∧ (101 / 2 : ℝ) ≠ 50 := by
  refine ⟨?_, by norm_num [stD, stE], by norm_num⟩
  rw [clusters_DE]
  simp [repOf_DE]

/-- C6 amended: every cluster is nonempty and collapses to the centroid of
its member locations, the ROUNDED mean of the member values (Python round),
and category Interpolated when it has more than one member, the sole
member's category unchanged otherwise; the 50/54 end-to-end scenario still
yields one representative with value 52 and category Interpolated. -/
theorem C6_cluster_representative :
    (∀ (points : List Station) (r : ℝ) (c : List Station), c ∈ clusters points r →
      c ≠ [] ∧ repOf c =
        ⟨(c.map Station.lat).sum / c.length, (c.map Station.lon).sum / c.length,
         pyRound ((c.map Station.aqi).sum / c.length),
         if 1 < c.length then "Interpolated" else c.headI.category⟩) ∧
    (∀ p : Station, repOf [p] = ⟨p.lat, p.lon, pyRound p.aqi, p.category⟩) ∧
    (clusters [stP1, stP2] 1).map repOf =
      [⟨40.0005, -100.0005, 52, "Interpolated"⟩] := by
  refine ⟨?_, repOf_singleton, ?_⟩
  · intro points r c hc
    exact ⟨clustersAux_forall_ne_nil points r points.enum [] c hc, rfl⟩
  · rw [clusters_P1P2]
    simp [repOf_P1P2]

/-- C6 witness: the scenario cluster is a member of the cluster list and is
nonempty. -/
theorem C6_cluster_representative_witness :
    [stP1, stP2] ∈ clusters [stP1, stP2] 1 ∧ ([stP1, stP2] : List Station) ≠ [] :=
  ⟨by rw [clusters_P1P2]; simp,
   (C6_cluster_representative.1 [stP1, stP2] 1 [stP1, stP2]
      (by rw [clusters_P1P2]; simp)).1⟩

/-- C7 counterexample: the emitted cell value is NOT the weighted mean and
can fall outside [min, max] of the neighbour values: for the single input
point with value 2/5, the first emitted cell carries 0 (the rounded mean),
below its sole neighbour's value 2/5. -/
theorem C7_counterexample :
    (fillGrid [stF]).head? = some ⟨25.5, -124.5, 0, "Interpolated"⟩ ∧
    nearestAqi [stF] 25 (-125) = [stF] ∧
    stF.aqi = 2 / 5 ∧ ¬ ((2:ℝ) / 5 ≤ 0) := by
  refine ⟨?_, nearestAqi_singleton stF 25 (-125), rfl, by norm_num⟩
  unfold fillGrid
  rw [aqiLattice_head, fillGridAux_eq_map [stF] (by simp), List.map_cons,
    List.head?_cons]
  rw [show cellAvg [stF] ((25:ℝ), (-125:ℝ)).1 ((25:ℝ), (-125:ℝ)).2 = stF.aqi from
    cellAvg_singleton stF 25 (-125)]
  rw [show stF.aqi = 2/5 from rfl, pyRound_two_fifths]
  norm_num [AqiRec.mk.injEq]

/-- C7 amended: at every lattice coordinate the emitted cell value is the
weighted mean passed through Python's round, and the weighted mean itself
(before rounding) lies within any interval containing all selected
neighbour values — in particular within [min, max] of the neighbour
values. -/
theorem C7_weighted_mean_bounded (points : List Station) (lat lon m M : ℝ)
    (hne : points ≠ [])
    (hb : ∀ q ∈ nearestAqi points lat lon, m ≤ q.aqi ∧ q.aqi ≤ M) :
    nearestAqi points lat lon ≠ [] ∧
    m ≤ cellAvg points lat lon ∧ cellAvg points lat lon ≤ M ∧
    fillGrid points = aqiLattice.map (fun q =>
      ({ lat := q.1 + 0.5, lon := q.2 + 0.5,
         aqi := pyRound (cellAvg points q.1 q.2),
         category := "Interpolated" } : AqiRec)) := by
  obtain ⟨h1, h2⟩ := cellAvg_bounds points lat lon m M hne hb
  refine ⟨by rw [Ne, nearestAqi_eq_nil_iff]; exact hne, h1, h2, ?_⟩
  unfold fillGrid
  exact fillGridAux_eq_map points hne aqiLattice

/-- C7 witness: the bound at the single-point input with value 2/5. -/
theorem C7_weighted_mean_bounded_witness :
    ([stF] : List Station) ≠ [] ∧
    (∀ q ∈ nearestAqi [stF] 25 (-125), 2/5 ≤ q.aqi ∧ q.aqi ≤ 2/5) ∧
    2/5 ≤ cellAvg [stF] 25 (-125) ∧ cellAvg [stF] 25 (-125) ≤ 2/5 := by
  have hb : ∀ q ∈ nearestAqi [stF] 25 (-125), 2/5 ≤ q.aqi ∧ q.aqi ≤ 2/5 := by
    rw [nearestAqi_singleton]
    intro q hq
    rw [List.mem_singleton] at hq
    rw [hq]
    exact ⟨le_refl _, le_refl _⟩
  have h := C7_weighted_mean_bounded [stF] 25 (-125) (2/5) (2/5) (by simp) hb
  exact ⟨by simp, hb, h.2.1, h.2.2.1⟩

/-- C8: the empty input executes cleanly and produces the empty output at
every stage — no clusters, no grid cells, for both the AQI and the AOD
smoothing passes. -/
theorem C8_empty_input (r : ℝ) (rand : ℕ → ℝ) :
    smooth_aqi_points [] r = [] ∧
    clusters [] r = [] ∧
    fillGrid [] = [] ∧
    smooth_aod_points [] rand = [] := by
  refine ⟨smooth_aqi_points_nil r, rfl, ?_, ?_⟩
  · unfold fillGrid
    exact fillGridAux_nil_points aqiLattice
  · unfold smooth_aod_points
    rw [if_pos rfl]

/-- C9: the neighbour count is clamped to min(5, number of points), and for
a single input point with value 30 every emitted grid cell carries exactly
30 — the sole neighbour's weight cancels in the weighted mean and round is
the identity on 30. -/
theorem C9_neighbor_clamp_single_point :
    (∀ (points : List Station) (lat lon : ℝ),
      (nearestAqi points lat lon).length = min 5 points.length) ∧
    (∀ (city cat tm : String) (plat plon lat lon : ℝ),
      cellAvg [⟨city, plat, plon, 30, cat, tm⟩] lat lon = 30) ∧
    (∀ c ∈ fillGrid [stG], c.aqi = 30) := by
  refine ⟨nearestAqi_length, ?_, ?_⟩
  · intro city cat tm plat plon lat lon
    exact cellAvg_singleton ⟨city, plat, plon, 30, cat, tm⟩ lat lon
  · intro c hc
    unfold fillGrid at hc
    rw [fillGridAux_eq_map [stG] (by simp), List.mem_map] at hc
    obtain ⟨q, hq, hceq⟩ := hc
    rw [← hceq]
    show pyRound (cellAvg [stG] q.1 q.2) = 30
    rw [cellAvg_singleton]
    rw [show stG.aqi = (30:ℝ) from rfl]
    exact pyRound_30

/-- C9 witness: the first emitted cell for the single 30-valued station. -/
theorem C9_neighbor_clamp_single_point_witness :
    (⟨25.5, -124.5, 30, "Interpolated"⟩ : AqiRec) ∈ fillGrid [stG] ∧
    (⟨25.5, -124.5, (30:ℝ), "Interpolated"⟩ : AqiRec).aqi = 30 := by
  have hmem : (⟨25.5, -124.5, 30, "Interpolated"⟩ : AqiRec) ∈ fillGrid [stG] := by
    unfold fillGrid
    rw [fillGridAux_eq_map [stG] (by simp), List.mem_map]
    refine ⟨(25, -125), ?_, ?_⟩
    · rw [aqiLattice_head]
      exact List.mem_cons_self _ _
    · show ({ lat := (25:ℝ) + 0.5, lon := (-125:ℝ) + 0.5,
              aqi := pyRound (cellAvg [stG] 25 (-125)),
              category := "Interpolated" } : AqiRec) = _
      rw [cellAvg_singleton, show stG.aqi = (30:ℝ) from rfl, pyRound_30]
      norm_num [AqiRec.mk.injEq]
  exact ⟨hmem, C9_neighbor_clamp_single_point.2.2 _ hmem⟩

/-- C10: for nonempty input the AQI smoothing pass returns the cluster
representatives first, then exactly one grid cell per lattice coordinate
(the 13 latitudes 25..49 by the 30 longitudes -125..-67, 390 cells), each
placed at the lattice coordinate plus 0.5 degrees, carrying category
Interpolated and the rounded weighted mean. -/
theorem C10_output_shape (points : List Station) (r : ℝ) (h : points ≠ []) :
    smooth_aqi_points points r = (clusters points r).map repOf ++ fillGrid points ∧
    fillGrid points = aqiLattice.map (fun q =>
      ({ lat := q.1 + 0.5, lon := q.2 + 0.5,
         aqi := pyRound (cellAvg points q.1 q.2),
         category := "Interpolated" } : AqiRec)) ∧
    (fillGrid points).length = 390 ∧
    aqiLattice = (arange 25 50 2).flatMap (fun la =>
      (arange (-125) (-65) 2).map (fun lo => (la, lo))) ∧
    arange 25 50 2 = [25, 27, 29, 31, 33, 35, 37, 39, 41, 43, 45, 47, 49] ∧
    arange (-125) (-65) 2 =
      [-125, -123, -121, -119, -117, -115, -113, -111, -109, -107, -105, -103,
       -101, -99, -97, -95, -93, -91, -89, -87, -85, -83, -81, -79, -77, -75,
       -73, -71, -69, -67] := by
  refine ⟨smooth_aqi_points_cons points r h, ?_, ?_, rfl, arange_aqi_lat,
    arange_aqi_lon⟩
  · unfold fillGrid
    exact fillGridAux_eq_map points h aqiLattice
  · unfold fillGrid
    rw [fillGridAux_eq_map points h aqiLattice, List.length_map, aqiLattice_length]

/-- C10 witness: the single 30-valued station yields 390 grid cells. -/
theorem C10_output_shape_witness :
    ([stG] : List Station) ≠ [] ∧ (fillGrid [stG]).length = 390 :=
  ⟨by simp, (C10_output_shape [stG] 150 (by simp)).2.2.1⟩

end NasaSpaceApps
